import Mathlib

/-!
Shallow embedding of the subscriber/theme persistence and dispatch logic of
the Ethiopian History AI Bot (source files `src/bot.py` and `src/themes.py`).

Modelling conventions used throughout this file:

* Python dicts are modelled as association lists `List (String × α)` with
  unique keys and insertion order preserved; `alGet`, `alSet` and
  `alSetdefault` mirror `d[k]` / `d.get(k)`, `d[k] = v` and
  `d.setdefault(k, v)` respectively.
* The backing JSON files are modelled by explicit state passing: each
  operation takes the loaded state and returns the state it saves.
* Calls to the language-model API (`llm.invoke`) are modelled as oracle
  values of type `Except Unit String`: `.ok content` is a successful
  response whose `.content` is the given string, `.error ()` is an
  exception raised by the call.  The three Python extraction branches
  (`.content` attribute, list of messages, `str(resp)`) all end in one
  string, which the oracle returns directly.
* Python `str.strip()` is modelled by `pyStripStr` (drop ASCII whitespace
  from both ends), `str.join` by `pyJoin`, `int(...)` on strings by
  `pyInt` (optional surrounding whitespace, optional sign, decimal
  digits).
* `date.today()` / ISO-week computations are environment inputs; functions
  that call them take the current week key / day index as a parameter.
-/

/-- Characters treated as whitespace by Python `str.strip()` (ASCII subset). -/
def isPySpace (c : Char) : Bool :=
  (c == ' ') || (c == '\t') || (c == '\n') || (c == '\r') || (c == '\x0b') || (c == '\x0c')

/-- ASCII decimal digit test. -/
def isDigitChar (c : Char) : Bool :=
  ('0' ≤ c) && (c ≤ '9')

/-- Python `str.strip()` on the character list of a string. -/
def pyStrip (cs : List Char) : List Char :=
  ((cs.dropWhile isPySpace).reverse.dropWhile isPySpace).reverse

/-- Python `str.strip()` returning a string. -/
def pyStripStr (s : String) : String :=
  ⟨pyStrip s.data⟩

/-- Value of a list of decimal digit characters, most significant first. -/
def digitsToNat (cs : List Char) : Nat :=
  cs.foldl (fun a c => a * 10 + (c.toNat - Char.toNat '0')) 0

/-- Numeric value of an all-digit string. -/
def natVal (s : String) : Nat :=
  digitsToNat s.data

/-- Core of Python `int(s)` after stripping: optional sign followed by
decimal digits; `none` models the `ValueError` raised on anything else. -/
def pyIntCore : List Char → Option Int
  | [] => none
  | c :: rest =>
    if c = '+' then
      (if rest ≠ [] ∧ rest.all isDigitChar then some (digitsToNat rest : Int) else none)
    else if c = '-' then
      (if rest ≠ [] ∧ rest.all isDigitChar then some (-(digitsToNat rest : Int)) else none)
    else
      (if (c :: rest).all isDigitChar then some (digitsToNat (c :: rest) : Int) else none)

/-- Python `int(s)` on a string: strip surrounding whitespace, then parse
an optionally signed decimal literal. -/
def pyInt (s : String) : Option Int :=
  pyIntCore (pyStrip s.data)

/-- Python `sep.join(items)`. -/
def pyJoin (sep : String) : List String → String
  | [] => ""
  | s :: rest => rest.foldl (fun acc t => acc ++ sep ++ t) s

/-- A list comprehension `[f(x) for x in l]` over a fallible `f`: `none`
models the exception raised by the first failing element. -/
def pyMapList {α β : Type} (f : α → Option β) : List α → Option (List β)
  | [] => some []
  | x :: xs =>
    match f x, pyMapList f xs with
    | some v, some vs => some (v :: vs)
    | _, _ => none

/-- Python dict read `d.get(k)`: value at the first (unique) matching key. -/
def alGet {α : Type} : List (String × α) → String → Option α
  | [], _ => none
  | (k, v) :: rest, key => if k = key then some v else alGet rest key

/-- Python dict assignment `d[k] = v`: replace the value at an existing key
in place, or append a new binding at the end (insertion order). -/
def alSet {α : Type} : List (String × α) → String → α → List (String × α)
  | [], key, v => [(key, v)]
  | (k, w) :: rest, key, v =>
    if k = key then (key, v) :: rest else (k, w) :: alSet rest key v

/-- Python `d.setdefault(k, dflt)`: insert `dflt` at the end when the key is
absent, leave the dict unchanged otherwise. -/
def alSetdefault {α : Type} (m : List (String × α)) (key : String) (dflt : α) :
    List (String × α) :=
  if (alGet m key).isSome then m else m ++ [(key, dflt)]

/-- The persisted theme state (`themes.json`), as read and written by
`src/themes.py`: themed-subscriber list, current ISO week key, current
theme, and the per-week per-chat fact log. -/
structure ThemeState where
  subscribers : List Int
  current_week_key : String
  current_theme : String
  facts_log : List (String × List (String × List String))
deriving Repr, DecidableEq

/-- The default empty theme state returned by `_load_state` when the file is
missing or unparsable. -/
def defaultThemeState : ThemeState :=
  { subscribers := [], current_week_key := "", current_theme := "", facts_log := [] }

namespace Themes

/-- `themes.subscribe(chat_id)`: returns `False` (state untouched) when the
chat is already in the subscriber list, else appends it and saves. -/
def subscribe (s : ThemeState) (chat_id : Int) : Bool × ThemeState :=
  if chat_id ∈ s.subscribers then (false, s)
  else (true, { s with subscribers := s.subscribers ++ [chat_id] })

/-- `themes.unsubscribe(chat_id)`: returns `False` (state untouched) when
the chat is absent, else removes the first occurrence and saves. -/
def unsubscribe (s : ThemeState) (chat_id : Int) : Bool × ThemeState :=
  if chat_id ∈ s.subscribers then
    (true, { s with subscribers := s.subscribers.erase chat_id })
  else (false, s)

/-- `themes.is_subscribed(chat_id)`: membership in the subscriber list. -/
def is_subscribed (s : ThemeState) (chat_id : Int) : Bool :=
  s.subscribers.contains chat_id

/-- Python truthiness of `admin_override or _pick_random_theme()`:
`None` and the empty string both fall back to the random pick. -/
def overrideOrPick (admin_override : Option String) (pick : String) : String :=
  match admin_override with
  | some o => if o = "" then pick else o
  | none => pick

/-- `themes.ensure_current_week_theme(admin_override)`, with the current
week key `wk` (computed in Python from `date.today()`) and the result of
`_pick_random_theme()` passed as parameters.  Returns the saved state plus
the `(week_key, theme)` pair the Python function returns. -/
def ensure_current_week_theme (s : ThemeState) (wk : String)
    (admin_override : Option String) (pick : String) :
    ThemeState × String × String :=
  if s.current_week_key ≠ wk ∨ s.current_theme = "" then
    let theme := overrideOrPick admin_override pick
    let s' : ThemeState :=
      { s with current_week_key := wk, current_theme := theme,
               facts_log := alSetdefault s.facts_log wk [] }
    (s', s'.current_week_key, s'.current_theme)
  else
    (s, s.current_week_key, s.current_theme)

/-- `themes.log_fact_for_chat(chat_id, week_key, fact)`: append `fact` to
the chat's bucket for that week (creating empty buckets as needed via
`setdefault`) and save. -/
def log_fact_for_chat (s : ThemeState) (chat_id : Int) (week_key : String)
    (fact : String) : ThemeState :=
  let fl := alSetdefault s.facts_log week_key []
  let wk_log := (alGet fl week_key).getD []
  let bucket := alSetdefault wk_log (toString chat_id) []
  let chat_log := (alGet bucket (toString chat_id)).getD []
  let bucket' := alSet bucket (toString chat_id) (chat_log ++ [fact])
  { s with facts_log := alSet fl week_key bucket' }

/-- `themes.generate_themed_fact_sync(theme, day_index)`: the LLM call is
the oracle; the response content is stripped; exceptions propagate. -/
def generate_themed_fact_sync (llm : String → Nat → Except Unit String)
    (theme : String) (day_index : Nat) : Except Unit String :=
  (llm theme day_index).map pyStripStr

/-- The deterministic fallback produced by `compile_weekly_summary_sync`
when the LLM call raises. -/
def fallback_summary (theme : String) (facts : List String) : String :=
  ("Weekly Summary for \x27") ++ theme ++ ("\x27:\n\n")
    ++ pyJoin ("\n") (facts.map (fun f => ("- ") ++ f))

/-- `themes.compile_weekly_summary_sync(theme, facts)`: returns the stripped
LLM response, or on any exception the plain bulleted fallback. -/
def compile_weekly_summary_sync (llm : Except Unit String) (theme : String)
    (facts : List String) : String :=
  match llm with
  | .ok content => pyStripStr content
  | .error _ => fallback_summary theme facts

end Themes

/-- Split a character list at the first colon, returning the parts before
and after it; `none` when there is no colon. -/
def splitFirstColon : List Char → Option (List Char × List Char)
  | [] => none
  | c :: rest =>
    if c = ':' then some ([], rest)
    else (splitFirstColon rest).map (fun p => (c :: p.1, p.2))

/-- Python `s.split(":", 1)`: at most one split, at the first colon. -/
def pySplitOnce (s : String) : List String :=
  match splitFirstColon s.data with
  | none => [s]
  | some (a, b) => [⟨a⟩, ⟨b⟩]

namespace Bot

/-- The fixed apology returned by `_generate_fact_sync` when the LLM call
raises (`src/bot.py`, `except` branch). -/
def apologyText : String :=
  "I apologize, but I'm having trouble generating a history fact right now. Please try again later."

/-- `bot._generate_fact_sync()`: the stripped LLM response content, or the
apology text when anything inside the `try` raises.  Total: it never
propagates an exception. -/
def generate_fact_sync (llm : Except Unit String) : String :=
  match llm with
  | .ok content => pyStripStr content
  | .error _ => apologyText

/-- `bot._parse_daily_time(time_str)`: split at the first colon, convert the
parts with `int`, default the minute to 0, reduce modulo 24/60; any
exception falls back to `(9, 0)`.  Result is `(hour, minute)`. -/
def parse_daily_time (time_str : String) : Nat × Nat :=
  match pyMapList pyInt (pySplitOnce time_str) with
  | none => (9, 0)
  | some [] => (9, 0)
  | some [h] => ((h % 24).toNat, 0)
  | some (h :: m :: _) => ((h % 24).toNat, (m % 60).toNat)

/-- The message text sent in the generic branch of `_send_daily_facts`. -/
def genericMessage (fact : String) : String :=
  ("🌅 **Daily Ethiopian History Fact**\n\n") ++ fact ++ ("\n\n🇪🇹 Have a great day!")

/-- The message text sent in the themed branch of `_send_daily_facts`. -/
def themedMessage (theme : String) (day_index : Nat) (fact : String) : String :=
  ("🌅 Weekly Theme: ") ++ theme ++ ("\nDay ") ++ toString day_index ++ ("/7\n\n") ++ fact

/-- The condition of the themed branch in `_send_daily_facts`:
`themes.is_themes_enabled() and themes.is_subscribed(chat_id) and
theme_name and day_index` (a `None`/empty theme name and a `None` day
index — encoded as `""` and `0` — are falsy). -/
def themedBranchCond (enabled : Bool) (subscribers : List Int)
    (theme_name : String) (day_index : Nat) (chat_id : Int) : Bool :=
  enabled && subscribers.contains chat_id && !(theme_name == "") && !(day_index == 0)

/-- Running state of one dispatch cycle: the `generic_fact` cache, the
number of generic/LLM generation calls made, the success/failure counters,
the list of `(chat_id, text)` pairs passed to `send_message`, and the theme
store state (mutated by `log_fact_for_chat`). -/
structure DispatchAcc where
  genericFact : Option String
  genericCalls : Nat
  successful : Nat
  failed : Nat
  attempts : List (Int × String)
  themeSt : ThemeState
deriving Repr, DecidableEq

/-- Initial accumulator of a dispatch cycle over theme store state `s`. -/
def initAcc (s : ThemeState) : DispatchAcc :=
  { genericFact := none, genericCalls := 0, successful := 0, failed := 0,
    attempts := [], themeSt := s }

/-- The per-chat body of the loop in `_send_daily_facts`, including its
`try`/`except`: a themed-generation error or a failed send (`sendOk
chat_id = false` models `send_message` raising) increments `failed`;
otherwise the send is recorded and `successful` is incremented. -/
def dispatchStep (enabled : Bool) (wk theme_name : String) (day_index : Nat)
    (llmG : Except Unit String) (llmT : String → Nat → Except Unit String)
    (sendOk : Int → Bool) (acc : DispatchAcc) (chat_id : Int) : DispatchAcc :=
  if themedBranchCond enabled acc.themeSt.subscribers theme_name day_index chat_id then
    match Themes.generate_themed_fact_sync llmT theme_name day_index with
    | .error _ => { acc with failed := acc.failed + 1 }
    | .ok themed_fact =>
      let text := themedMessage theme_name day_index themed_fact
      if sendOk chat_id then
        { acc with attempts := acc.attempts ++ [(chat_id, text)],
                   themeSt := Themes.log_fact_for_chat acc.themeSt chat_id wk themed_fact,
                   successful := acc.successful + 1 }
      else
        { acc with attempts := acc.attempts ++ [(chat_id, text)],
                   failed := acc.failed + 1 }
  else
    let fact := match acc.genericFact with
      | some f => f
      | none => generate_fact_sync llmG
    let calls := match acc.genericFact with
      | some _ => acc.genericCalls
      | none => acc.genericCalls + 1
    let text := genericMessage fact
    if sendOk chat_id then
      { acc with genericFact := some fact, genericCalls := calls,
                 attempts := acc.attempts ++ [(chat_id, text)],
                 successful := acc.successful + 1 }
    else
      { acc with genericFact := some fact, genericCalls := calls,
                 attempts := acc.attempts ++ [(chat_id, text)],
                 failed := acc.failed + 1 }

/-- The theme/day context `_send_daily_facts` sets up before its loop: when
themes are enabled it runs `ensure_current_week_theme` (whose saved state
the loop then observes) and computes the day index; otherwise week key,
theme name and day index stay `None` (encoded `""`, `""`, `0`). -/
def dispatchContext (enabled : Bool) (s0 : ThemeState) (wkToday pick : String)
    (dayToday : Nat) : ThemeState × String × String × Nat :=
  if enabled then
    let r := Themes.ensure_current_week_theme s0 wkToday none pick
    (r.1, r.2.1, r.2.2, dayToday)
  else
    (s0, "", "", 0)

/-- `bot._send_daily_facts`: no-op on an empty subscriber set, otherwise set
up the theme context and run the per-chat loop.  `subs` is the loaded
subscriber set (iteration order as given); `wkToday`, `pick`, `dayToday`
are the environment inputs (current ISO week key, random theme pick,
`isoweekday`); `llmG`/`llmT` are the LLM oracles; `sendOk` tells which
chats' `send_message` succeeds. -/
def send_daily_facts (subs : List Int) (enabled : Bool) (s0 : ThemeState)
    (wkToday pick : String) (dayToday : Nat) (llmG : Except Unit String)
    (llmT : String → Nat → Except Unit String) (sendOk : Int → Bool) : DispatchAcc :=
  if subs.isEmpty then initAcc s0
  else
    let ctx := dispatchContext enabled s0 wkToday pick dayToday
    subs.foldl (dispatchStep enabled ctx.2.1 ctx.2.2.1 ctx.2.2.2 llmG llmT sendOk)
      (initAcc ctx.1)

/-- Whether the per-chat body of `_send_daily_facts` raises for `chat_id`
(so the chat is counted in `failed_sends`): in the themed branch a
generation error or a failed send, in the generic branch a failed send
(generic generation is total). -/
def chatFails (enabled : Bool) (subscribers : List Int) (theme_name : String)
    (day_index : Nat) (llmT : String → Nat → Except Unit String)
    (sendOk : Int → Bool) (chat_id : Int) : Bool :=
  if themedBranchCond enabled subscribers theme_name day_index chat_id then
    match Themes.generate_themed_fact_sync llmT theme_name day_index with
    | .error _ => true
    | .ok _ => !sendOk chat_id
  else !sendOk chat_id

end Bot

/-- JSON values as produced by `json.load` (integral numbers only; the
subscriber and theme files never contain fractional numbers). -/
inductive Json where
  | jnull : Json
  | jbool : Bool → Json
  | jint : Int → Json
  | jstr : String → Json
  | jarr : List Json → Json
  | jobj : List (String × Json) → Json

/-- Python `int(x)` on a JSON value: ints pass through, bools are 0/1
(`bool` is an `int` subclass), strings are parsed; anything else raises. -/
def pyIntOfJson : Json → Option Int
  | .jint n => some n
  | .jbool b => some (if b then 1 else 0)
  | .jstr s => pyInt s
  | _ => none

/-- `int(x) for x in v`: iterating a JSON value the way Python does — a
list yields its elements, a string its one-character substrings, a dict its
keys; anything else is not iterable and raises. -/
def jsonIterInts : Json → Option (List Int)
  | .jarr xs => pyMapList pyIntOfJson xs
  | .jstr s => pyMapList (fun c => pyInt ⟨[c]⟩) s.data
  | .jobj fields => pyMapList (fun kv => pyInt kv.1) fields
  | _ => none

/-- `set(int(x) for x in data.get("subscribers", []))` in
`bot._load_subscribers`: `none` models any exception in the comprehension
(or `data` not being a dict, so that `.get` raises). -/
def subscribersFromJson : Json → Option (Finset Int)
  | .jobj fields =>
    match alGet fields ("subscribers") with
    | none => some ∅
    | some v => (jsonIterInts v).map List.toFinset
  | _ => none

namespace Bot

/-- `bot._load_subscribers()`: the backing file is `none` when missing,
`some (.error ())` when `json.load` raises, `some (.ok j)` when it parses
to `j`.  Every failure path yields the empty set; nothing propagates. -/
def load_subscribers (file : Option (Except Unit Json)) : Finset Int :=
  match file with
  | none => ∅
  | some (.error _) => ∅
  | some (.ok j) => (subscribersFromJson j).getD ∅

end Bot

/-- The default JSON document `themes._load_state` falls back to. -/
def defaultThemeJson : Json :=
  .jobj [(("subscribers"), .jarr []), (("current_week_key"), .jstr ""),
         (("current_theme"), .jstr ""), (("facts_log"), .jobj [])]

namespace Themes

/-- `themes._load_state()`: missing file or a `json.load` failure yield the
default empty structure; a parsed document is returned as is. -/
def load_state (file : Option (Except Unit Json)) : Json :=
  match file with
  | none => defaultThemeJson
  | some (.error _) => defaultThemeJson
  | some (.ok j) => j

end Themes

/-- Thread-local state of one `/start` handler performing the subscriber
read-modify-write of `bot.start_command`: `pc = 0` before
`_load_subscribers`, `pc = 1` between the load and `_save_subscribers`
(the lock is NOT held here), `pc = 2` when done. -/
structure AddThread where
  chatId : Int
  pc : Nat
  localSubs : List Int
deriving Repr, DecidableEq

/-- A fresh handler thread about to subscribe `c`. -/
def initThread (c : Int) : AddThread :=
  { chatId := c, pc := 0, localSubs := [] }

/-- `subs.add(chat_id)` on the loaded set, rendered as a list:
no-op when present, append otherwise. -/
def pySetAdd (l : List Int) (c : Int) : List Int :=
  if l.contains c then l else l ++ [c]

/-- One atomic step of a handler thread.  Each step is exactly one
`_SUB_LOCK`-guarded region of `src/bot.py`: step `pc 0` is the whole of
`_load_subscribers` (read the file), step `pc 1` is the whole of
`_save_subscribers` (write the locally updated set).  Between the two
steps the lock is free, as in the source. -/
def threadStep (file : List Int) (t : AddThread) : List Int × AddThread :=
  match t.pc with
  | 0 => (file, { t with localSubs := file, pc := 1 })
  | 1 => (pySetAdd t.localSubs t.chatId, { t with pc := 2 })
  | _ => (file, t)

/-- Run two concurrent subscribe handlers under a schedule: `true` steps
thread 1, `false` steps thread 2.  Any schedule is permitted by the lock
discipline of the source, because the lock is only ever held inside one
`threadStep`. -/
def runSchedule (t1 t2 : AddThread) (file : List Int) :
    List Bool → List Int × AddThread × AddThread
  | [] => (file, t1, t2)
  | b :: rest =>
    if b then
      let r := threadStep file t1
      runSchedule r.2 t2 r.1 rest
    else
      let r := threadStep file t2
      runSchedule t1 r.2 r.1 rest

/-- Final file contents after two concurrent `/start` subscriptions of
`c1` and `c2` executed under the given schedule, starting from an empty
subscriber file. -/
def finalFile (c1 c2 : Int) (sched : List Bool) : List Int :=
  (runSchedule (initThread c1) (initThread c2) [] sched).1

/-- The well-formed shape the spec assigns to `DAILY_SEND_TIME` (§6:
`"HH:MM"`, 24-hour): one colon separating two nonempty digit groups of at
most two digits, hour at most 23, minute at most 59.  This definition
follows the spec wording and exists to compare against
`Bot.parse_daily_time`, which is translated from the source. -/
def specWellFormedHHMM (s : String) : Bool :=
  match splitFirstColon s.data with
  | none => false
  | some (h, m) =>
    !h.isEmpty && !m.isEmpty && h.all isDigitChar && m.all isDigitChar
      && decide (h.length ≤ 2) && decide (m.length ≤ 2)
      && decide (digitsToNat h ≤ 23) && decide (digitsToNat m ≤ 59)

/-! ### Association-list (Python dict) lemmas -/

lemma alGet_alSet_self {α : Type} (m : List (String × α)) (k : String) (v : α) :
    alGet (alSet m k v) k = some v := by
  induction m with
  | nil => simp [alSet, alGet]
  | cons p rest ih =>
    obtain ⟨a, b⟩ := p
    by_cases h : a = k
    · simp [alSet, alGet, h]
    · simp [alSet, alGet, h, ih]

lemma alGet_alSet_ne {α : Type} (m : List (String × α)) (k k' : String) (v : α)
    (h : k' ≠ k) : alGet (alSet m k v) k' = alGet m k' := by
  induction m with
  | nil => simp [alSet, alGet, Ne.symm h]
  | cons p rest ih =>
    obtain ⟨a, b⟩ := p
    by_cases ha : a = k
    · subst ha
      simp [alSet, alGet, Ne.symm h]
    · simp [alSet, alGet, ha, ih]

lemma alGet_append_single_ne {α : Type} (m : List (String × α)) (k k' : String)
    (d : α) (h : k' ≠ k) : alGet (m ++ [(k, d)]) k' = alGet m k' := by
  induction m with
  | nil => simp [alGet, Ne.symm h]
  | cons p rest ih =>
    obtain ⟨a, b⟩ := p
    by_cases ha : a = k'
    · simp [alGet, ha]
    · simp [alGet, ha, ih]

lemma alGet_append_single_self {α : Type} (m : List (String × α)) (k : String)
    (d : α) (h : alGet m k = none) : alGet (m ++ [(k, d)]) k = some d := by
  induction m with
  | nil => simp [alGet]
  | cons p rest ih =>
    obtain ⟨a, b⟩ := p
    by_cases ha : a = k
    · simp [alGet, ha] at h
    · simp [alGet, ha] at h ⊢
      exact ih h

lemma alGet_alSetdefault_ne {α : Type} (m : List (String × α)) (k k' : String)
    (d : α) (h : k' ≠ k) : alGet (alSetdefault m k d) k' = alGet m k' := by
  unfold alSetdefault
  by_cases hs : (alGet m k).isSome
  · rw [if_pos hs]
  · rw [if_neg hs]
    exact alGet_append_single_ne m k k' d h

lemma alGet_alSetdefault_self {α : Type} (m : List (String × α)) (k : String)
    (d : α) : alGet (alSetdefault m k d) k = some ((alGet m k).getD d) := by
  unfold alSetdefault
  cases hv : alGet m k with
  | some v => simp [hv]
  | none =>
    simp only [hv, Option.isSome_none, Bool.false_eq_true, if_false, Option.getD_none]
    exact alGet_append_single_self m k d hv

/-! ### C6: loading persisted state never raises -/

/-- C6: loading persisted state never raises to the caller: on a missing
file or a parse failure, `_load_subscribers` returns the empty set and
`_load_state` returns the default empty structure; a successfully parsed
document passes through; the subscriber load is total on every file
content. -/
theorem load_failure_defaults :
    Bot.load_subscribers none = ∅
  ∧ Bot.load_subscribers (some (.error ())) = ∅
  ∧ Themes.load_state none = defaultThemeJson
  ∧ Themes.load_state (some (.error ())) = defaultThemeJson
  ∧ (∀ j : Json, Themes.load_state (some (.ok j)) = j)
  ∧ (∀ f : Option (Except Unit Json), ∃ r : Finset Int, Bot.load_subscribers f = r) :=
  ⟨rfl, rfl, rfl, rfl, fun _ => rfl, fun _ => ⟨_, rfl⟩⟩

/-! ### C8: the lock serializes single loads/saves, not whole sequences -/

/-- C8 counterexample: a schedule in which two concurrent subscribe
operations interleave their loads and saves (T1 load, T2 load, T1 save,
T2 save).  Every step respects the source's lock discipline — `_SUB_LOCK`
is held only inside a single load or save — yet subscriber 1's update is
lost, so read-modify-write sequences are NOT serialized as the claim
states. -/
theorem sub_lock_interleaving_cex :
    finalFile 1 2 [true, false, true, false] = [2]
  ∧ (1 : Int) ∉ finalFile 1 2 [true, false, true, false]
  ∧ finalFile 1 2 [true, true, false, false] = [1, 2]
  ∧ finalFile 1 2 [false, false, true, true] = [2, 1]
  ∧ finalFile 1 2 [true, false, true, false] ≠ finalFile 1 2 [true, true, false, false]
  ∧ finalFile 1 2 [true, false, true, false] ≠ finalFile 1 2 [false, false, true, true] := by
  refine ⟨by decide, by decide, by decide, by decide, by decide, by decide⟩

/-- C8 amended: each individual load and each individual save on the
subscriber file is atomic under the dedicated lock, but the lock is
released between the load and the save of a read-modify-write sequence:
executed serially both subscriptions survive, while the interleaved
schedule loses the first thread's update. -/
theorem sub_lock_amended (c1 c2 : Int) (h : c1 ≠ c2) :
    finalFile c1 c2 [true, true, false, false] = [c1, c2]
  ∧ finalFile c1 c2 [false, false, true, true] = [c2, c1]
  ∧ finalFile c1 c2 [true, false, true, false] = [c2] := by
  refine ⟨?_, ?_, ?_⟩
  · simp [finalFile, runSchedule, threadStep, initThread, pySetAdd, Ne.symm h]
  · simp [finalFile, runSchedule, threadStep, initThread, pySetAdd, h]
  · simp [finalFile, runSchedule, threadStep, initThread, pySetAdd]

/-- C8 amended, witness at chats 1 and 2. -/
theorem sub_lock_amended_witness :
    (1 : Int) ≠ 2
  ∧ (finalFile 1 2 [true, true, false, false] = [1, 2]
     ∧ finalFile 1 2 [false, false, true, true] = [2, 1]
     ∧ finalFile 1 2 [true, false, true, false] = [2]) :=
  ⟨by decide, sub_lock_amended 1 2 (by decide)⟩


/-! ### C1: ensure_current_week_theme — idempotence and override behavior -/

/-- The state written by the selection branch of `ensure_current_week_theme`. -/
def ensureUpdated (s : ThemeState) (wk theme : String) : ThemeState :=
  { s with current_week_key := wk, current_theme := theme,
           facts_log := alSetdefault s.facts_log wk [] }

/-- C1 counterexample: when the stored week key already equals the current
week and a theme is stored, a call with an override does NOT return or
persist the override — the selection branch is skipped, the state is
unchanged, and the previously stored theme is returned. -/
theorem ensure_week_theme_override_cex :
    Themes.ensure_current_week_theme
        ⟨[], ("2026-01"), ("Historic Battles"), []⟩ ("2026-01")
        (some ("Freedom Fighters")) ("Ancient Kingdoms")
      = (⟨[], ("2026-01"), ("Historic Battles"), []⟩, ("2026-01"), ("Historic Battles"))
  ∧ (("Historic Battles") : String) ≠ ("Freedom Fighters") := by
  refine ⟨by decide, by decide⟩

/-- C1 amended: two calls within the same week without an override return
the identical result (state and `(week_key, theme)` pair) both times,
provided the catalog pick is nonempty; a call with a nonempty override
returns that override and persists it only when the stored week key differs
from the current week or no theme is stored — otherwise the override is
ignored (see the counterexample). -/
theorem ensure_week_theme_amended (s : ThemeState) (wk pick1 pick2 : String)
    (hp : pick1 ≠ ("")) :
    (Themes.ensure_current_week_theme
        (Themes.ensure_current_week_theme s wk none pick1).1 wk none pick2
      = Themes.ensure_current_week_theme s wk none pick1)
  ∧ (∀ ov : String, ov ≠ ("") → (s.current_week_key ≠ wk ∨ s.current_theme = ("")) →
      (Themes.ensure_current_week_theme s wk (some ov) pick1).2 = (wk, ov)
      ∧ (Themes.ensure_current_week_theme s wk (some ov) pick1).1.current_week_key = wk
      ∧ (Themes.ensure_current_week_theme s wk (some ov) pick1).1.current_theme = ov) := by
  constructor
  · by_cases hbr : s.current_week_key ≠ wk ∨ s.current_theme = ("")
    · have h1 : Themes.ensure_current_week_theme s wk none pick1
          = (ensureUpdated s wk pick1, wk, pick1) := by
        unfold Themes.ensure_current_week_theme
        rw [if_pos hbr]
        rfl
      rw [h1]
      unfold Themes.ensure_current_week_theme
      rw [if_neg]
      · rfl
      · simp [ensureUpdated, hp]
    · simp only [Themes.ensure_current_week_theme, if_neg hbr]
  · intro ov hov hbr
    have h2 : Themes.ensure_current_week_theme s wk (some ov) pick1
        = (ensureUpdated s wk ov, wk, ov) := by
      unfold Themes.ensure_current_week_theme
      rw [if_pos hbr]
      simp only [Themes.overrideOrPick, if_neg hov]
      rfl
    rw [h2]
    exact ⟨rfl, rfl, rfl⟩

/-- C1 amended, witness: a fresh state in week `2026-01` keeps the same
theme across two calls. -/
theorem ensure_week_theme_amended_witness :
    (("Cultural Heritage") : String) ≠ ("")
  ∧ Themes.ensure_current_week_theme
        (Themes.ensure_current_week_theme defaultThemeState ("2026-01") none ("Cultural Heritage")).1
        ("2026-01") none ("Influential Leaders")
      = Themes.ensure_current_week_theme defaultThemeState ("2026-01") none ("Cultural Heritage") :=
  ⟨by decide,
   (ensure_week_theme_amended defaultThemeState ("2026-01") ("Cultural Heritage")
      ("Influential Leaders") (by decide)).1⟩

/-! ### C7: theme subscribe/unsubscribe -/

/-- C7: `subscribe` returns `false` and leaves the state unchanged when the
chat is already subscribed, else returns `true` with the chat appended;
`unsubscribe` returns `false` with the state unchanged when the chat is
absent, else returns `true` with the chat removed (the subscriber list
having no duplicates, the chat is then no longer subscribed). -/
theorem theme_subscribe_unsubscribe_spec (s : ThemeState) (chat : Int)
    (hnd : s.subscribers.Nodup) :
    (chat ∈ s.subscribers → Themes.subscribe s chat = (false, s))
  ∧ (chat ∉ s.subscribers →
      Themes.subscribe s chat = (true, { s with subscribers := s.subscribers ++ [chat] }))
  ∧ (chat ∉ s.subscribers → Themes.unsubscribe s chat = (false, s))
  ∧ (chat ∈ s.subscribers →
      Themes.unsubscribe s chat = (true, { s with subscribers := s.subscribers.erase chat })
      ∧ chat ∉ (Themes.unsubscribe s chat).2.subscribers) := by
  refine ⟨fun hin => ?_, fun hout => ?_, fun hout => ?_, fun hin => ?_⟩
  · simp [Themes.subscribe, hin]
  · simp [Themes.subscribe, hout]
  · simp [Themes.unsubscribe, hout]
  · constructor
    · simp [Themes.unsubscribe, hin]
    · simp only [Themes.unsubscribe, if_pos hin]
      intro hmem
      exact absurd rfl ((hnd.mem_erase_iff.mp hmem).1)

/-- C7 witness at the singleton subscriber list `[5]`. -/
theorem theme_subscribe_unsubscribe_witness :
    (([5] : List Int)).Nodup
  ∧ ((5 : Int) ∈ ([5] : List Int))
  ∧ Themes.subscribe ⟨[5], (""), (""), []⟩ 5 = (false, ⟨[5], (""), (""), []⟩) :=
  ⟨by decide, by decide,
   (theme_subscribe_unsubscribe_spec ⟨[5], (""), (""), []⟩ 5 (by decide)).1 (by decide)⟩

/-! ### C5: parsing DAILY_SEND_TIME -/

/-- C5 counterexample: `"25:70"` is not a well-formed 24-hour `HH:MM`
value, yet `_parse_daily_time` does not fall back to `09:00` — it wraps
the components modulo 24/60 and yields `01:10`. -/
theorem parse_daily_time_cex :
    Bot.parse_daily_time ("25:70") = (1, 10)
  ∧ specWellFormedHHMM ("25:70") = false
  ∧ Bot.parse_daily_time ("25:70") ≠ (9, 0) := by
  refine ⟨by decide, by decide, by decide⟩

lemma string_data_append (s t : String) : (s ++ t).data = s.data ++ t.data := rfl

lemma digit_not_space (c : Char) (h : isDigitChar c = true) : isPySpace c = false := by
  cases hs : isPySpace c
  · rfl
  · exfalso
    simp only [isPySpace, Bool.or_eq_true, beq_iff_eq] at hs
    rcases hs with (((((hc | hc) | hc) | hc) | hc) | hc) <;> subst hc <;>
      exact absurd h (by decide)

lemma dropWhile_eq_self (p : Char → Bool) (l : List Char)
    (h : ∀ c ∈ l, p c = false) : l.dropWhile p = l := by
  cases l with
  | nil => rfl
  | cons c rest => simp [List.dropWhile_cons, h c (List.mem_cons_self c rest)]

lemma pyStrip_all_digits (l : List Char) (hd : l.all isDigitChar = true) :
    pyStrip l = l := by
  have hns : ∀ c ∈ l, isPySpace c = false := fun c hc =>
    digit_not_space c (List.all_eq_true.mp hd c hc)
  unfold pyStrip
  rw [dropWhile_eq_self _ _ hns,
      dropWhile_eq_self _ _ (fun c hc => hns c (List.mem_reverse.mp hc)),
      List.reverse_reverse]

lemma pyIntCore_digits (l : List Char) (hne : l ≠ []) (hd : l.all isDigitChar = true) :
    pyIntCore l = some ((digitsToNat l : Nat) : Int) := by
  cases l with
  | nil => exact absurd rfl hne
  | cons c rest =>
    have hc : isDigitChar c = true :=
      List.all_eq_true.mp hd c (List.mem_cons_self c rest)
    have h1 : c ≠ '+' := fun h => by subst h; exact absurd hc (by decide)
    have h2 : c ≠ '-' := fun h => by subst h; exact absurd hc (by decide)
    simp only [pyIntCore, if_neg h1, if_neg h2, if_pos hd]

lemma pyInt_digits (s : String) (hne : s.data ≠ []) (hd : s.data.all isDigitChar = true) :
    pyInt s = some ((natVal s : Nat) : Int) := by
  unfold pyInt natVal
  rw [pyStrip_all_digits s.data hd]
  exact pyIntCore_digits s.data hne hd

lemma digit_ne_colon (c : Char) (h : isDigitChar c = true) : c ≠ ':' :=
  fun hc => by subst hc; exact absurd h (by decide)

lemma splitFirstColon_append (h : List Char) (hcol : ∀ c ∈ h, c ≠ ':') (t : List Char) :
    splitFirstColon (h ++ ':' :: t) = some (h, t) := by
  induction h with
  | nil => simp [splitFirstColon]
  | cons c cs ih =>
    have hc : c ≠ ':' := hcol c (List.mem_cons_self c cs)
    have ih' := ih (fun d hd => hcol d (List.mem_cons_of_mem c hd))
    simp [splitFirstColon, hc, ih']

/-- C5 amended: a well-formed digit `HH:MM` parses to precisely that time;
inputs whose colon-split components fail integer conversion fall back to
`(9, 0)`; integer components are reduced modulo 24/60 rather than
range-checked, the minute defaulting to 0 when there is no colon. -/
theorem parse_daily_time_amended (hs ms t : String) (h m : Int)
    (hne : hs.data ≠ []) (hd : hs.data.all isDigitChar = true)
    (mne : ms.data ≠ []) (md : ms.data.all isDigitChar = true)
    (hh : natVal hs ≤ 23) (hm : natVal ms ≤ 59) :
    Bot.parse_daily_time (hs ++ (":") ++ ms) = (natVal hs, natVal ms)
  ∧ (pyMapList pyInt (pySplitOnce t) = none → Bot.parse_daily_time t = (9, 0))
  ∧ (pyMapList pyInt (pySplitOnce t) = some [h] →
      Bot.parse_daily_time t = ((h % 24).toNat, 0))
  ∧ (pyMapList pyInt (pySplitOnce t) = some [h, m] →
      Bot.parse_daily_time t = ((h % 24).toNat, (m % 60).toNat)) := by
  refine ⟨?_, ?_, ?_, ?_⟩
  · have hdata : (hs ++ (":") ++ ms).data = hs.data ++ ':' :: ms.data := by
      rw [string_data_append, string_data_append]
      simp
    have hsplit : pySplitOnce (hs ++ (":") ++ ms) = [hs, ms] := by
      unfold pySplitOnce
      rw [hdata, splitFirstColon_append hs.data
        (fun c hc => digit_ne_colon c (List.all_eq_true.mp hd c hc)) ms.data]
    have hmap : pyMapList pyInt (pySplitOnce (hs ++ (":") ++ ms))
        = some [(natVal hs : Int), (natVal ms : Int)] := by
      rw [hsplit]
      simp [pyMapList, pyInt_digits hs hne hd, pyInt_digits ms mne md]
    unfold Bot.parse_daily_time
    rw [hmap]
    show (((natVal hs : Int) % 24).toNat, ((natVal ms : Int) % 60).toNat)
      = (natVal hs, natVal ms)
    have e1 : ((natVal hs : Int) % 24).toNat = natVal hs := by omega
    have e2 : ((natVal ms : Int) % 60).toNat = natVal ms := by omega
    rw [e1, e2]
  · intro he
    unfold Bot.parse_daily_time
    rw [he]
  · intro he
    unfold Bot.parse_daily_time
    rw [he]
  · intro he
    unfold Bot.parse_daily_time
    rw [he]

/-- C5 amended, witness at `"09"`, `"30"` and the unparsable `"aa:bb"`. -/
theorem parse_daily_time_amended_witness :
    (("09") : String).data ≠ []
  ∧ (("09") : String).data.all isDigitChar = true
  ∧ natVal ("09") ≤ 23
  ∧ Bot.parse_daily_time (("09") ++ (":") ++ ("30")) = (natVal ("09"), natVal ("30")) :=
  ⟨by decide, by decide, by decide,
   (parse_daily_time_amended ("09") ("30") ("aa:bb") 0 0 (by decide) (by decide)
      (by decide) (by decide) (by decide) (by decide)).1⟩

/-! ### C4: compile_weekly_summary fallback -/

lemma foldl_join_substring (sep : String) (l : List String) :
    ∀ acc : String,
      (∃ p q : List Char,
        (l.foldl (fun a t => a ++ sep ++ t) acc).data = p ++ acc.data ++ q)
    ∧ (∀ f ∈ l, ∃ p q : List Char,
        (l.foldl (fun a t => a ++ sep ++ t) acc).data = p ++ f.data ++ q) := by
  induction l with
  | nil =>
    intro acc
    refine ⟨⟨[], [], by simp⟩, fun f hf => absurd hf (List.not_mem_nil f)⟩
  | cons t ts ih =>
    intro acc
    have key := ih (acc ++ sep ++ t)
    constructor
    · obtain ⟨p, q, hpq⟩ := key.1
      refine ⟨p, sep.data ++ t.data ++ q, ?_⟩
      rw [List.foldl_cons, hpq, string_data_append, string_data_append]
      simp [List.append_assoc]
    · intro f hf
      rcases List.mem_cons.mp hf with rfl | hf'
      · obtain ⟨p, q, hpq⟩ := key.1
        refine ⟨p ++ acc.data ++ sep.data, q, ?_⟩
        rw [List.foldl_cons, hpq, string_data_append, string_data_append]
        simp [List.append_assoc]
      · obtain ⟨p, q, hpq⟩ := key.2 f hf'
        rw [List.foldl_cons]
        exact ⟨p, q, hpq⟩

lemma pyJoin_mem_substring (sep : String) (l : List String) (f : String) (hf : f ∈ l) :
    ∃ p q : List Char, (pyJoin sep l).data = p ++ f.data ++ q := by
  cases l with
  | nil => exact absurd hf (List.not_mem_nil f)
  | cons x xs =>
    rcases List.mem_cons.mp hf with rfl | hx
    · exact (foldl_join_substring sep xs f).1
    · exact (foldl_join_substring sep xs x).2 f hx

/-- C4: `compile_weekly_summary_sync` is total — a successful LLM call
yields the stripped content, and a failing call yields the deterministic
fallback, which contains the theme name and every input fact verbatim. -/
theorem compile_weekly_summary_fallback (theme content : String) (facts : List String) :
    Themes.compile_weekly_summary_sync (.error ()) theme facts
      = Themes.fallback_summary theme facts
  ∧ (∃ p q : List Char,
      (Themes.compile_weekly_summary_sync (.error ()) theme facts).data
        = p ++ theme.data ++ q)
  ∧ (∀ f ∈ facts, ∃ p q : List Char,
      (Themes.compile_weekly_summary_sync (.error ()) theme facts).data
        = p ++ f.data ++ q)
  ∧ Themes.compile_weekly_summary_sync (.ok content) theme facts = pyStripStr content := by
  refine ⟨rfl, ?_, ?_, rfl⟩
  · refine ⟨(("Weekly Summary for \x27") : String).data,
      (("\x27:\n\n") : String).data
        ++ (pyJoin ("\n") (facts.map (fun f => ("- ") ++ f))).data, ?_⟩
    show (Themes.fallback_summary theme facts).data = _
    unfold Themes.fallback_summary
    rw [string_data_append, string_data_append, string_data_append]
    simp [List.append_assoc]
  · intro f hf
    have hmem : (("- ") ++ f) ∈ facts.map (fun g => ("- ") ++ g) :=
      List.mem_map_of_mem (fun g => ("- ") ++ g) hf
    obtain ⟨p, q, hpq⟩ := pyJoin_mem_substring ("\n") _ _ hmem
    rw [string_data_append] at hpq
    refine ⟨(("Weekly Summary for \x27") : String).data ++ theme.data
        ++ (("\x27:\n\n") : String).data ++ p ++ (("- ") : String).data, q, ?_⟩
    show (Themes.fallback_summary theme facts).data = _
    unfold Themes.fallback_summary
    rw [string_data_append, string_data_append, string_data_append, hpq]
    simp [List.append_assoc]

/-- C4 witness at theme `"T"` and facts `["a", "b"]`. -/
theorem compile_weekly_summary_fallback_witness :
    (("a") : String) ∈ (["a", "b"] : List String)
  ∧ (∃ p q : List Char,
      (Themes.compile_weekly_summary_sync (.error ()) ("T") ["a", "b"]).data
        = p ++ (("a") : String).data ++ q) :=
  ⟨by decide,
   (compile_weekly_summary_fallback ("T") ("x") ["a", "b"]).2.2.1 ("a") (by decide)⟩

/-! ### C9: theme mutations preserve prior weeks' fact logs -/

/-- C9: `ensure_current_week_theme` leaves every other week's fact-log
bucket unchanged (adding only an empty bucket for the new week when
absent, and touching nothing when the week's theme is already set), and
`log_fact_for_chat` changes only the given week's bucket, and within it
only the given chat's entry, to which it appends the fact. -/
theorem facts_log_frame (s : ThemeState) (wk : String) (ov : Option String)
    (pick : String) (chat : Int) (wkk fact w w' c' : String)
    (h1 : w ≠ wk) (h2 : w' ≠ wkk) (h3 : c' ≠ toString chat) :
    alGet (Themes.ensure_current_week_theme s wk ov pick).1.facts_log w
      = alGet s.facts_log w
  ∧ (s.current_week_key = wk ∧ s.current_theme ≠ ("") →
      (Themes.ensure_current_week_theme s wk ov pick).1 = s)
  ∧ (alGet s.facts_log wk = none ∧ (s.current_week_key ≠ wk ∨ s.current_theme = ("")) →
      alGet (Themes.ensure_current_week_theme s wk ov pick).1.facts_log wk = some [])
  ∧ alGet (Themes.log_fact_for_chat s chat wkk fact).facts_log w'
      = alGet s.facts_log w'
  ∧ alGet ((alGet (Themes.log_fact_for_chat s chat wkk fact).facts_log wkk).getD []) c'
      = alGet ((alGet s.facts_log wkk).getD []) c'
  ∧ alGet ((alGet (Themes.log_fact_for_chat s chat wkk fact).facts_log wkk).getD [])
        (toString chat)
      = some ((alGet ((alGet s.facts_log wkk).getD []) (toString chat)).getD []
          ++ [fact]) := by
  refine ⟨?_, ?_, ?_, ?_, ?_, ?_⟩
  · unfold Themes.ensure_current_week_theme
    by_cases hbr : s.current_week_key ≠ wk ∨ s.current_theme = ("")
    · rw [if_pos hbr]
      exact alGet_alSetdefault_ne s.facts_log wk w [] h1
    · rw [if_neg hbr]
  · intro ⟨ha, hb⟩
    unfold Themes.ensure_current_week_theme
    rw [if_neg]
    simp [ha, hb]
  · intro ⟨habs, hbr⟩
    unfold Themes.ensure_current_week_theme
    rw [if_pos hbr]
    show alGet (alSetdefault s.facts_log wk []) wk = some []
    rw [alGet_alSetdefault_self, habs]
    rfl
  · simp only [Themes.log_fact_for_chat]
    rw [alGet_alSet_ne _ _ _ _ h2, alGet_alSetdefault_ne _ _ _ _ h2]
  · simp only [Themes.log_fact_for_chat]
    rw [alGet_alSet_self]
    simp only [Option.getD_some]
    rw [alGet_alSet_ne _ _ _ _ h3, alGet_alSetdefault_ne _ _ _ _ h3,
      alGet_alSetdefault_self]
    simp
  · simp only [Themes.log_fact_for_chat]
    rw [alGet_alSet_self]
    simp only [Option.getD_some]
    rw [alGet_alSet_self, alGet_alSetdefault_self, alGet_alSetdefault_self]
    simp

/-- C9 witness: logging a fact for chat 7 in week `wA` leaves the other
week `wX` untouched. -/
theorem facts_log_frame_witness :
    (("wA") : String) ≠ ("wB")
  ∧ (("wX") : String) ≠ ("wA")
  ∧ (("8") : String) ≠ toString (7 : Int)
  ∧ alGet (Themes.log_fact_for_chat ⟨[], (""), (""), [(("wA"), [(("7"), ["f0"])])]⟩
        7 ("wA") ("f1")).facts_log ("wX")
      = alGet ([(("wA"), [(("7"), ["f0"])])]
          : List (String × List (String × List String))) ("wX") :=
  ⟨by decide, by decide, by decide,
   (facts_log_frame ⟨[], (""), (""), [(("wA"), [(("7"), ["f0"])])]⟩ ("wB") none ("P")
      7 ("wA") ("f1") ("wA") ("wX") ("8")
      (by decide) (by decide) (by decide)).2.2.2.1⟩

/-! ### Dispatch-cycle loop lemmas -/

lemma log_fact_subscribers (s : ThemeState) (c : Int) (w f : String) :
    (Themes.log_fact_for_chat s c w f).subscribers = s.subscribers := rfl

lemma ensure_subscribers (s : ThemeState) (wk : String) (ov : Option String)
    (pick : String) :
    (Themes.ensure_current_week_theme s wk ov pick).1.subscribers = s.subscribers := by
  unfold Themes.ensure_current_week_theme
  split <;> rfl

lemma dispatchContext_subscribers (e : Bool) (s0 : ThemeState) (wkT pick : String)
    (dayT : Nat) :
    (Bot.dispatchContext e s0 wkT pick dayT).1.subscribers = s0.subscribers := by
  unfold Bot.dispatchContext
  split
  · exact ensure_subscribers s0 wkT none pick
  · rfl

lemma dispatchStep_subscribers (e : Bool) (wk tn : String) (di : Nat)
    (lG : Except Unit String) (lT : String → Nat → Except Unit String)
    (sOk : Int → Bool) (acc : Bot.DispatchAcc) (c : Int) :
    (Bot.dispatchStep e wk tn di lG lT sOk acc c).themeSt.subscribers
      = acc.themeSt.subscribers := by
  simp only [Bot.dispatchStep]
  split
  · split
    · rfl
    · split
      · simp [log_fact_subscribers]
      · rfl
  · split <;> rfl

lemma dispatchStep_counts (e : Bool) (wk tn : String) (di : Nat)
    (lG : Except Unit String) (lT : String → Nat → Except Unit String)
    (sOk : Int → Bool) (acc : Bot.DispatchAcc) (c : Int) :
    (Bot.dispatchStep e wk tn di lG lT sOk acc c).successful
      = acc.successful
        + (if Bot.chatFails e acc.themeSt.subscribers tn di lT sOk c then 0 else 1)
  ∧ (Bot.dispatchStep e wk tn di lG lT sOk acc c).failed
      = acc.failed
        + (if Bot.chatFails e acc.themeSt.subscribers tn di lT sOk c then 1 else 0) := by
  unfold Bot.chatFails
  simp only [Bot.dispatchStep]
  by_cases hb : Bot.themedBranchCond e acc.themeSt.subscribers tn di c = true
  · simp only [if_pos hb]
    cases hgen : Themes.generate_themed_fact_sync lT tn di with
    | error u => simp
    | ok fct =>
      by_cases hs : sOk c = true
      · simp [hs]
      · simp [hs]
  · simp only [if_neg hb]
    by_cases hs : sOk c = true
    · simp [hs]
    · simp [hs]

lemma filter_ext {α : Type} (p q : α → Bool) (h : ∀ a, p a = q a) (l : List α) :
    l.filter p = l.filter q := by
  induction l with
  | nil => rfl
  | cons a t ih => simp [List.filter_cons, h a, ih]

lemma length_filter_not_add {α : Type} (p : α → Bool) (l : List α) :
    (l.filter (fun a => !(p a))).length + (l.filter p).length = l.length := by
  induction l with
  | nil => rfl
  | cons a t ih =>
    by_cases h : p a = true <;> simp [List.filter_cons, h] <;> omega

lemma dispatch_foldl_counts (e : Bool) (wk tn : String) (di : Nat)
    (lG : Except Unit String) (lT : String → Nat → Except Unit String)
    (sOk : Int → Bool) :
    ∀ (subs : List Int) (acc : Bot.DispatchAcc),
      ((subs.foldl (Bot.dispatchStep e wk tn di lG lT sOk) acc).successful
        = acc.successful
          + (subs.filter (fun c => !(Bot.chatFails e acc.themeSt.subscribers tn di lT sOk c))).length)
    ∧ ((subs.foldl (Bot.dispatchStep e wk tn di lG lT sOk) acc).failed
        = acc.failed
          + (subs.filter (fun c => Bot.chatFails e acc.themeSt.subscribers tn di lT sOk c)).length)
    ∧ ((subs.foldl (Bot.dispatchStep e wk tn di lG lT sOk) acc).themeSt.subscribers
        = acc.themeSt.subscribers) := by
  intro subs
  induction subs with
  | nil => intro acc; exact ⟨by simp, by simp, rfl⟩
  | cons c cs ih =>
    intro acc
    have hstep := dispatchStep_counts e wk tn di lG lT sOk acc c
    have hsubs := dispatchStep_subscribers e wk tn di lG lT sOk acc c
    have IH := ih (Bot.dispatchStep e wk tn di lG lT sOk acc c)
    simp only [hsubs] at IH
    refine ⟨?_, ?_, ?_⟩
    · rw [List.foldl_cons, IH.1, hstep.1]
      by_cases hf : Bot.chatFails e acc.themeSt.subscribers tn di lT sOk c = true
      · simp [List.filter_cons, hf]
      · simp [List.filter_cons, hf]
        omega
    · rw [List.foldl_cons, IH.2.1, hstep.2]
      by_cases hf : Bot.chatFails e acc.themeSt.subscribers tn di lT sOk c = true
      · simp [List.filter_cons, hf]
        omega
      · simp [List.filter_cons, hf]
    · rw [List.foldl_cons, IH.2.2]

lemma initAcc_themeSt (s : ThemeState) : (Bot.initAcc s).themeSt = s := rfl

lemma send_daily_counts (subs : List Int) (enabled : Bool) (s0 : ThemeState)
    (wkToday pick : String) (dayToday : Nat) (llmG : Except Unit String)
    (llmT : String → Nat → Except Unit String) (sendOk : Int → Bool) :
    ((Bot.send_daily_facts subs enabled s0 wkToday pick dayToday llmG llmT sendOk).successful
      = (subs.filter (fun c => !(Bot.chatFails enabled s0.subscribers
          (Bot.dispatchContext enabled s0 wkToday pick dayToday).2.2.1
          (Bot.dispatchContext enabled s0 wkToday pick dayToday).2.2.2 llmT sendOk c))).length)
  ∧ ((Bot.send_daily_facts subs enabled s0 wkToday pick dayToday llmG llmT sendOk).failed
      = (subs.filter (fun c => Bot.chatFails enabled s0.subscribers
          (Bot.dispatchContext enabled s0 wkToday pick dayToday).2.2.1
          (Bot.dispatchContext enabled s0 wkToday pick dayToday).2.2.2 llmT sendOk c)).length) := by
  cases subs with
  | nil => simp [Bot.send_daily_facts, Bot.initAcc]
  | cons c cs =>
    have hfold := dispatch_foldl_counts enabled
      (Bot.dispatchContext enabled s0 wkToday pick dayToday).2.1
      (Bot.dispatchContext enabled s0 wkToday pick dayToday).2.2.1
      (Bot.dispatchContext enabled s0 wkToday pick dayToday).2.2.2
      llmG llmT sendOk (c :: cs)
      (Bot.initAcc (Bot.dispatchContext enabled s0 wkToday pick dayToday).1)
    simp only [initAcc_themeSt, dispatchContext_subscribers] at hfold
    constructor
    · rw [show Bot.send_daily_facts (c :: cs) enabled s0 wkToday pick dayToday llmG llmT sendOk
          = (c :: cs).foldl (Bot.dispatchStep enabled
              (Bot.dispatchContext enabled s0 wkToday pick dayToday).2.1
              (Bot.dispatchContext enabled s0 wkToday pick dayToday).2.2.1
              (Bot.dispatchContext enabled s0 wkToday pick dayToday).2.2.2 llmG llmT sendOk)
            (Bot.initAcc (Bot.dispatchContext enabled s0 wkToday pick dayToday).1) from rfl]
      rw [hfold.1]
      simp [Bot.initAcc]
    · rw [show Bot.send_daily_facts (c :: cs) enabled s0 wkToday pick dayToday llmG llmT sendOk
          = (c :: cs).foldl (Bot.dispatchStep enabled
              (Bot.dispatchContext enabled s0 wkToday pick dayToday).2.1
              (Bot.dispatchContext enabled s0 wkToday pick dayToday).2.2.1
              (Bot.dispatchContext enabled s0 wkToday pick dayToday).2.2.2 llmG llmT sendOk)
            (Bot.initAcc (Bot.dispatchContext enabled s0 wkToday pick dayToday).1) from rfl]
      rw [hfold.2.1]
      simp [Bot.initAcc]

lemma dispatchStep_generic_cached (e : Bool) (wk tn : String) (di : Nat)
    (lG : Except Unit String) (lT : String → Nat → Except Unit String)
    (sOk : Int → Bool) (acc : Bot.DispatchAcc) (c : Int) (gf : String)
    (hb : Bot.themedBranchCond e acc.themeSt.subscribers tn di c = false)
    (hg : acc.genericFact = some gf) :
    (Bot.dispatchStep e wk tn di lG lT sOk acc c).attempts
      = acc.attempts ++ [(c, Bot.genericMessage gf)]
  ∧ (Bot.dispatchStep e wk tn di lG lT sOk acc c).genericCalls = acc.genericCalls
  ∧ (Bot.dispatchStep e wk tn di lG lT sOk acc c).genericFact = some gf
  ∧ (Bot.dispatchStep e wk tn di lG lT sOk acc c).themeSt = acc.themeSt := by
  by_cases hs : sOk c = true
  · simp [Bot.dispatchStep, hb, hg, hs]
  · simp [Bot.dispatchStep, hb, hg, hs]

lemma dispatchStep_generic_first (e : Bool) (wk tn : String) (di : Nat)
    (lG : Except Unit String) (lT : String → Nat → Except Unit String)
    (sOk : Int → Bool) (acc : Bot.DispatchAcc) (c : Int)
    (hb : Bot.themedBranchCond e acc.themeSt.subscribers tn di c = false)
    (hg : acc.genericFact = none) :
    (Bot.dispatchStep e wk tn di lG lT sOk acc c).attempts
      = acc.attempts ++ [(c, Bot.genericMessage (Bot.generate_fact_sync lG))]
  ∧ (Bot.dispatchStep e wk tn di lG lT sOk acc c).genericCalls = acc.genericCalls + 1
  ∧ (Bot.dispatchStep e wk tn di lG lT sOk acc c).genericFact
      = some (Bot.generate_fact_sync lG)
  ∧ (Bot.dispatchStep e wk tn di lG lT sOk acc c).themeSt = acc.themeSt := by
  by_cases hs : sOk c = true
  · simp [Bot.dispatchStep, hb, hg, hs]
  · simp [Bot.dispatchStep, hb, hg, hs]

lemma dispatch_foldl_generic (e : Bool) (wk tn : String) (di : Nat)
    (lG : Except Unit String) (lT : String → Nat → Except Unit String)
    (sOk : Int → Bool) (gf : String) :
    ∀ (subs : List Int) (acc : Bot.DispatchAcc),
      acc.genericFact = some gf →
      (∀ c ∈ subs, Bot.themedBranchCond e acc.themeSt.subscribers tn di c = false) →
      ((subs.foldl (Bot.dispatchStep e wk tn di lG lT sOk) acc).attempts
        = acc.attempts ++ subs.map (fun c => (c, Bot.genericMessage gf)))
    ∧ ((subs.foldl (Bot.dispatchStep e wk tn di lG lT sOk) acc).genericCalls
        = acc.genericCalls)
    ∧ ((subs.foldl (Bot.dispatchStep e wk tn di lG lT sOk) acc).themeSt = acc.themeSt) := by
  intro subs
  induction subs with
  | nil => intro acc hg hnb; simp
  | cons c cs ih =>
    intro acc hg hnb
    have hb : Bot.themedBranchCond e acc.themeSt.subscribers tn di c = false :=
      hnb c (List.mem_cons_self c cs)
    have hstep := dispatchStep_generic_cached e wk tn di lG lT sOk acc c gf hb hg
    have IH := ih (Bot.dispatchStep e wk tn di lG lT sOk acc c) hstep.2.2.1
      (fun d hd => by rw [hstep.2.2.2]; exact hnb d (List.mem_cons_of_mem c hd))
    refine ⟨?_, ?_, ?_⟩
    · rw [List.foldl_cons, IH.1, hstep.1]
      simp
    · rw [List.foldl_cons, IH.2.1, hstep.2.1]
    · rw [List.foldl_cons, IH.2.2, hstep.2.2.2]

/-! ### C2: one shared generic fact per cycle -/

/-- C2: in a dispatch cycle over a non-empty subscriber set in which no
chat satisfies the themed-branch condition, the generic fact generator is
invoked exactly once, and the attempted send of every subscriber carries
the identical generic message text built from that one fact. -/
theorem generic_fact_shared_once (c0 : Int) (rest : List Int) (enabled : Bool)
    (s0 : ThemeState) (wkToday pick : String) (dayToday : Nat)
    (llmG : Except Unit String) (llmT : String → Nat → Except Unit String)
    (sendOk : Int → Bool)
    (hnb : ∀ c ∈ c0 :: rest, Bot.themedBranchCond enabled s0.subscribers
        (Bot.dispatchContext enabled s0 wkToday pick dayToday).2.2.1
        (Bot.dispatchContext enabled s0 wkToday pick dayToday).2.2.2 c = false) :
    (Bot.send_daily_facts (c0 :: rest) enabled s0 wkToday pick dayToday
        llmG llmT sendOk).genericCalls = 1
  ∧ (Bot.send_daily_facts (c0 :: rest) enabled s0 wkToday pick dayToday
        llmG llmT sendOk).attempts
      = (c0 :: rest).map (fun c => (c, Bot.genericMessage (Bot.generate_fact_sync llmG))) := by
  have hb0 : Bot.themedBranchCond enabled
      (Bot.initAcc (Bot.dispatchContext enabled s0 wkToday pick dayToday).1).themeSt.subscribers
      (Bot.dispatchContext enabled s0 wkToday pick dayToday).2.2.1
      (Bot.dispatchContext enabled s0 wkToday pick dayToday).2.2.2 c0 = false := by
    rw [initAcc_themeSt, dispatchContext_subscribers]
    exact hnb c0 (List.mem_cons_self c0 rest)
  have hstep := dispatchStep_generic_first enabled
    (Bot.dispatchContext enabled s0 wkToday pick dayToday).2.1
    (Bot.dispatchContext enabled s0 wkToday pick dayToday).2.2.1
    (Bot.dispatchContext enabled s0 wkToday pick dayToday).2.2.2
    llmG llmT sendOk
    (Bot.initAcc (Bot.dispatchContext enabled s0 wkToday pick dayToday).1) c0 hb0 rfl
  have hrest := dispatch_foldl_generic enabled
    (Bot.dispatchContext enabled s0 wkToday pick dayToday).2.1
    (Bot.dispatchContext enabled s0 wkToday pick dayToday).2.2.1
    (Bot.dispatchContext enabled s0 wkToday pick dayToday).2.2.2
    llmG llmT sendOk (Bot.generate_fact_sync llmG) rest
    (Bot.dispatchStep enabled
      (Bot.dispatchContext enabled s0 wkToday pick dayToday).2.1
      (Bot.dispatchContext enabled s0 wkToday pick dayToday).2.2.1
      (Bot.dispatchContext enabled s0 wkToday pick dayToday).2.2.2
      llmG llmT sendOk
      (Bot.initAcc (Bot.dispatchContext enabled s0 wkToday pick dayToday).1) c0)
    hstep.2.2.1
    (fun d hd => by
      rw [hstep.2.2.2, initAcc_themeSt, dispatchContext_subscribers]
      exact hnb d (List.mem_cons_of_mem c0 hd))
  have hsend : Bot.send_daily_facts (c0 :: rest) enabled s0 wkToday pick dayToday
      llmG llmT sendOk
    = rest.foldl (Bot.dispatchStep enabled
        (Bot.dispatchContext enabled s0 wkToday pick dayToday).2.1
        (Bot.dispatchContext enabled s0 wkToday pick dayToday).2.2.1
        (Bot.dispatchContext enabled s0 wkToday pick dayToday).2.2.2 llmG llmT sendOk)
      (Bot.dispatchStep enabled
        (Bot.dispatchContext enabled s0 wkToday pick dayToday).2.1
        (Bot.dispatchContext enabled s0 wkToday pick dayToday).2.2.1
        (Bot.dispatchContext enabled s0 wkToday pick dayToday).2.2.2 llmG llmT sendOk
        (Bot.initAcc (Bot.dispatchContext enabled s0 wkToday pick dayToday).1) c0) := rfl
  constructor
  · rw [hsend, hrest.2.1, hstep.2.1]
    simp [Bot.initAcc]
  · rw [hsend, hrest.1, hstep.1]
    simp [Bot.initAcc]

/-- C2 witness: subscriber set `{1, 2, 3}` with themes disabled. -/
theorem generic_fact_shared_once_witness :
    (∀ c ∈ ([1, 2, 3] : List Int), Bot.themedBranchCond false defaultThemeState.subscribers
        (Bot.dispatchContext false defaultThemeState ("w") ("p") 3).2.2.1
        (Bot.dispatchContext false defaultThemeState ("w") ("p") 3).2.2.2 c = false)
  ∧ (Bot.send_daily_facts [1, 2, 3] false defaultThemeState ("w") ("p") 3
        (.ok ("F")) (fun _ _ => .ok ("T")) (fun _ => true)).genericCalls = 1 :=
  ⟨by decide,
   (generic_fact_shared_once 1 [2, 3] false defaultThemeState ("w") ("p") 3
      (.ok ("F")) (fun _ _ => .ok ("T")) (fun _ => true) (by decide)).1⟩

/-! ### C3: per-chat isolation of the dispatch cycle -/

/-- C3: the dispatch cycle is total and accounts for every chat exactly
once: the final counters equal the number of chats whose per-chat body
succeeded/failed (a failure being a themed-generation error or a failed
send), their sum is the subscriber count, with themes disabled the counts
are exactly the send successes/failures, and on the set `{1,2,3}` with
chat 2's send failing the cycle ends with 2 successful and 1 failed. -/
theorem dispatch_per_chat_isolation (subs : List Int) (enabled : Bool) (s0 : ThemeState)
    (wkToday pick : String) (dayToday : Nat) (llmG : Except Unit String)
    (llmT : String → Nat → Except Unit String) (sendOk : Int → Bool) :
    ((Bot.send_daily_facts subs enabled s0 wkToday pick dayToday llmG llmT sendOk).successful
      = (subs.filter (fun c => !(Bot.chatFails enabled s0.subscribers
          (Bot.dispatchContext enabled s0 wkToday pick dayToday).2.2.1
          (Bot.dispatchContext enabled s0 wkToday pick dayToday).2.2.2 llmT sendOk c))).length)
  ∧ ((Bot.send_daily_facts subs enabled s0 wkToday pick dayToday llmG llmT sendOk).failed
      = (subs.filter (fun c => Bot.chatFails enabled s0.subscribers
          (Bot.dispatchContext enabled s0 wkToday pick dayToday).2.2.1
          (Bot.dispatchContext enabled s0 wkToday pick dayToday).2.2.2 llmT sendOk c)).length)
  ∧ ((Bot.send_daily_facts subs enabled s0 wkToday pick dayToday llmG llmT sendOk).successful
      + (Bot.send_daily_facts subs enabled s0 wkToday pick dayToday llmG llmT sendOk).failed
      = subs.length)
  ∧ ((Bot.send_daily_facts subs false s0 wkToday pick dayToday llmG llmT sendOk).successful
      = (subs.filter (fun c => sendOk c)).length
     ∧ (Bot.send_daily_facts subs false s0 wkToday pick dayToday llmG llmT sendOk).failed
      = (subs.filter (fun c => !(sendOk c))).length)
  ∧ ((Bot.send_daily_facts [1, 2, 3] false defaultThemeState ("w") ("p") 0 (.ok ("F"))
        (fun _ _ => .ok ("T")) (fun c => !(c == 2))).successful = 2
     ∧ (Bot.send_daily_facts [1, 2, 3] false defaultThemeState ("w") ("p") 0 (.ok ("F"))
        (fun _ _ => .ok ("T")) (fun c => !(c == 2))).failed = 1) := by
  have h := send_daily_counts subs enabled s0 wkToday pick dayToday llmG llmT sendOk
  refine ⟨h.1, h.2, ?_, ?_, by decide, by decide⟩
  · rw [h.1, h.2]
    exact length_filter_not_add _ subs
  · have h0 := send_daily_counts subs false s0 wkToday pick dayToday llmG llmT sendOk
    have hcf : ∀ a : Int, Bot.chatFails false s0.subscribers
        (Bot.dispatchContext false s0 wkToday pick dayToday).2.2.1
        (Bot.dispatchContext false s0 wkToday pick dayToday).2.2.2 llmT sendOk a
        = !(sendOk a) := fun a => rfl
    constructor
    · rw [h0.1, filter_ext _ (fun c => sendOk c) (fun a => by rw [hcf a, Bool.not_not]) subs]
    · rw [h0.2, filter_ext _ (fun c => !(sendOk c)) (fun a => hcf a) subs]

/-! ### C10: generic generation failure yields the apology, not a failure -/

/-- C10: the generic fact generator is total — a failing LLM call yields
the fixed apology string — and in a themes-disabled dispatch cycle with the
generic LLM failing, every subscriber's attempted send carries the apology
message, and the success/failure counters depend only on send outcomes:
generation failure contributes nothing to `failed_sends`. -/
theorem generic_failure_apology_counts (subs : List Int) (s0 : ThemeState)
    (wkToday pick : String) (dayToday : Nat)
    (llmT : String → Nat → Except Unit String) (sendOk : Int → Bool) (u : Unit) :
    Bot.generate_fact_sync (.error u) = Bot.apologyText
  ∧ ((Bot.send_daily_facts subs false s0 wkToday pick dayToday (.error ()) llmT
        sendOk).attempts
      = subs.map (fun c => (c, Bot.genericMessage Bot.apologyText)))
  ∧ ((Bot.send_daily_facts subs false s0 wkToday pick dayToday (.error ()) llmT
        sendOk).successful = (subs.filter (fun c => sendOk c)).length)
  ∧ ((Bot.send_daily_facts subs false s0 wkToday pick dayToday (.error ()) llmT
        sendOk).failed = (subs.filter (fun c => !(sendOk c))).length) := by
  refine ⟨rfl, ?_, ?_, ?_⟩
  · cases subs with
    | nil => simp [Bot.send_daily_facts, Bot.initAcc]
    | cons c cs =>
      have hstep := dispatchStep_generic_first false
        (Bot.dispatchContext false s0 wkToday pick dayToday).2.1
        (Bot.dispatchContext false s0 wkToday pick dayToday).2.2.1
        (Bot.dispatchContext false s0 wkToday pick dayToday).2.2.2
        (.error ()) llmT sendOk
        (Bot.initAcc (Bot.dispatchContext false s0 wkToday pick dayToday).1) c rfl rfl
      have hrest := dispatch_foldl_generic false
        (Bot.dispatchContext false s0 wkToday pick dayToday).2.1
        (Bot.dispatchContext false s0 wkToday pick dayToday).2.2.1
        (Bot.dispatchContext false s0 wkToday pick dayToday).2.2.2
        (.error ()) llmT sendOk Bot.apologyText cs
        (Bot.dispatchStep false
          (Bot.dispatchContext false s0 wkToday pick dayToday).2.1
          (Bot.dispatchContext false s0 wkToday pick dayToday).2.2.1
          (Bot.dispatchContext false s0 wkToday pick dayToday).2.2.2
          (.error ()) llmT sendOk
          (Bot.initAcc (Bot.dispatchContext false s0 wkToday pick dayToday).1) c)
        hstep.2.2.1 (fun d hd => rfl)
      have hsend : Bot.send_daily_facts (c :: cs) false s0 wkToday pick dayToday
          (.error ()) llmT sendOk
        = cs.foldl (Bot.dispatchStep false
            (Bot.dispatchContext false s0 wkToday pick dayToday).2.1
            (Bot.dispatchContext false s0 wkToday pick dayToday).2.2.1
            (Bot.dispatchContext false s0 wkToday pick dayToday).2.2.2 (.error ()) llmT sendOk)
          (Bot.dispatchStep false
            (Bot.dispatchContext false s0 wkToday pick dayToday).2.1
            (Bot.dispatchContext false s0 wkToday pick dayToday).2.2.1
            (Bot.dispatchContext false s0 wkToday pick dayToday).2.2.2 (.error ()) llmT sendOk
            (Bot.initAcc (Bot.dispatchContext false s0 wkToday pick dayToday).1) c) := rfl
      rw [hsend, hrest.1, hstep.1]
      simp [Bot.initAcc, Bot.generate_fact_sync]
  · have h0 := send_daily_counts subs false s0 wkToday pick dayToday (.error ()) llmT sendOk
    rw [h0.1, filter_ext
      (fun c => !(Bot.chatFails false s0.subscribers
        (Bot.dispatchContext false s0 wkToday pick dayToday).2.2.1
        (Bot.dispatchContext false s0 wkToday pick dayToday).2.2.2 llmT sendOk c))
      (fun c => sendOk c) (fun a => Bool.not_not (sendOk a)) subs]
  · have h0 := send_daily_counts subs false s0 wkToday pick dayToday (.error ()) llmT sendOk
    exact h0.2
